import Mathlib

/-!
Shallow embedding of `src/player.rs` from MCHPRS (the per-connection player
session core): the player session state, its persistence codec, the keep-alive
liveness logic inside `update`, the offline-UUID derivation, and the worldedit
selection helpers.  Machine integers are modelled as `Int`/`Nat` with explicit
wrapping or saturation where the Rust casts do that; `f64`/`f32` values are
modelled as exact rationals (the operations the claims exercise — casts, floor,
comparisons — are exact at every input the claims mention); fallible code
returns `Option`, with `none` standing for a Rust panic (an `unwrap` failure);
external collaborators (the bincode and nbt codecs, the md5 digest, the
directional comparison on block positions) are taken as explicit function
parameters, mirroring §6 of the specification.
-/

namespace MCHPRS

/-! ## Numeric casts of the Rust source -/

/-- Truncation of a rational toward zero, which is what Rust's `f64 as i32`
does before saturating: the ceiling for negative values, the floor
otherwise. -/
def ratTrunc (q : ℚ) : Int :=
  if q < 0 then ⌈q⌉ else ⌊q⌋

/-- Floor of a rational (`f32::floor` / the rounding of `rem_euclid`). -/
def ratFloor (q : ℚ) : Int :=
  ⌊q⌋

/-- Rust `q as i32` on an `f64` value: truncate toward zero, then saturate to
the `i32` range. -/
def f64_as_i32 (q : ℚ) : Int :=
  max (-(2 ^ 31 : Int)) (min ((2 ^ 31 : Int) - 1) (ratTrunc q))

/-- Rust `i >> 4` on an `i32`: arithmetic shift right by 4 bits, which on a
two's-complement value is floor division by 16. -/
def i32_asr4 (i : Int) : Int :=
  Int.fdiv i 16

/-- The grid-cell (chunk) coordinate the source computes: `self.x as i32 >> 4`. -/
def chunkAt (q : ℚ) : Int :=
  i32_asr4 (f64_as_i32 q)

/-- Rust `n as i8` applied to an unsigned value: wrap modulo 256 and
reinterpret in two's complement. -/
def i8_of_u8 (n : Nat) : Int :=
  if n % 256 < 128 then ((n % 256 : Nat) : Int) else ((n % 256 : Nat) : Int) - 256

/-- Rust `i as u8` on an `i8`: two's-complement reinterpretation, i.e. the
value modulo 256. -/
def u8_of_i8 (i : Int) : Nat :=
  (i % 256).toNat

/-- Rust `n as i16` applied to an unsigned value: wrap modulo 2^16 and
reinterpret in two's complement. -/
def i16_of_u16 (n : Nat) : Int :=
  if n % 65536 < 32768 then ((n % 65536 : Nat) : Int) else ((n % 65536 : Nat) : Int) - 65536

/-- Rust `i as u16` on an `i16`: the value modulo 2^16. -/
def u16_of_i16 (i : Int) : Nat :=
  (i % 65536).toNat

/-- Rust `n as i32` applied to a `u32`: wrap modulo 2^32 and reinterpret in
two's complement. -/
def i32_of_u32 (n : Nat) : Int :=
  if n % 2 ^ 32 < 2 ^ 31 then ((n % 2 ^ 32 : Nat) : Int) else ((n % 2 ^ 32 : Nat) : Int) - 2 ^ 32

/-- Rust `i as u32` on an `i32`: the value modulo 2^32. -/
def u32_of_i32 (i : Int) : Nat :=
  (i % 2 ^ 32).toNat

/-- Rust `i as usize` on an `i8`: sign-extend and reinterpret as a 64-bit
unsigned value, i.e. the value modulo 2^64. -/
def usize_of_i8 (i : Int) : Nat :=
  (i % 2 ^ 64).toNat

/-! ## Data model -/

/-- Modelled from the spec: the item data model lives in the items module,
outside the shown source; the spec treats an item only through its numeric
identifier, which the persistence layer stores via `get_id` and restores via
`from_id`.  An item type is therefore modelled by its identifier. -/
structure Item where
  id : Nat
deriving DecidableEq

def Item.from_id (id : Nat) : Item := ⟨id⟩

def Item.get_id (i : Item) : Nat := i.id

/-- Modelled from the spec: the decoded form of an item's opaque auxiliary
(NBT) payload, produced by the external nbt codec.  Its structure is opaque to
this core, so it is modelled as an abstract byte-list-shaped value. -/
def NbtBlob : Type := List Nat

instance : DecidableEq NbtBlob := inferInstanceAs (DecidableEq (List Nat))

/-- A stack of items in the live sparse inventory (`ItemStack` in the source;
`count` is a `u8`, `damage` a `u16`). -/
structure ItemStack where
  item_type : Item
  count : Nat
  damage : Nat
  nbt : Option NbtBlob
deriving DecidableEq

/-- One persisted inventory slot (`InventoryEntry` in the source: `id: u32`,
`slot: i8`, `count: i8`, `damage: i16`, `nbt: Option<Vec<u8>>`). -/
structure InventoryEntry where
  id : Nat
  slot : Int
  count : Int
  damage : Int
  nbt : Option (List Nat)
deriving DecidableEq

inductive Gamemode where
  | Creative
  | Spectator
deriving DecidableEq

def Gamemode.get_id : Gamemode → Nat
  | .Creative => 1
  | .Spectator => 3

/-- The persisted record shape (`PlayerData` in the source). -/
structure PlayerData where
  on_ground : Bool
  flying : Bool
  motion : List ℚ
  position : List ℚ
  rotation : List ℚ
  inventory : List InventoryEntry
  selected_item_slot : Int
  fly_speed : ℚ
  walk_speed : ℚ
  gamemode : Gamemode
deriving DecidableEq

inductive BlockDirection where
  | North
  | South
  | East
  | West
deriving DecidableEq

inductive BlockFacing where
  | North
  | South
  | East
  | West
  | Up
  | Down
deriving DecidableEq

/-- A 3D integer block coordinate (`BlockPos` in the blocks module). -/
structure BlockPos where
  x : Int
  y : Int
  z : Int
deriving DecidableEq

inductive WorldEditPosition where
  | First
  | Second
deriving DecidableEq

/-- Opaque clipboard contents (external to this core). -/
structure WorldEditClipboard where
deriving DecidableEq

/-- Opaque undo-history entry (external to this core). -/
structure WorldEditUndo where
deriving DecidableEq

/-- The transport capability: only its stable numeric connection handle is
state; `send_packet` is modelled by the packet lists the session operations
return. -/
structure NetworkClient where
  id : Nat
deriving DecidableEq

/-- The decoded clientbound packets the modelled operations emit. -/
inductive Packet where
  | keepAlive (id : Nat)
  | disconnect (reason : String)
deriving DecidableEq

/-- The live player session (`Player` in the source).  The two `Instant`
liveness timestamps are modelled as whole seconds on a monotonic clock, which
is the granularity `update` observes through `elapsed().as_secs()`. -/
structure Player where
  uuid : Nat
  username : String
  skin_parts : Nat
  inventory : List (Option ItemStack)
  selected_slot : Nat
  x : ℚ
  y : ℚ
  z : ℚ
  last_chunk_x : Int
  last_chunk_z : Int
  yaw : ℚ
  pitch : ℚ
  flying : Bool
  sprinting : Bool
  crouching : Bool
  on_ground : Bool
  fly_speed : ℚ
  walk_speed : ℚ
  gamemode : Gamemode
  entity_id : Nat
  client : NetworkClient
  last_keep_alive_received : Nat
  last_keep_alive_sent : Nat
  first_position : Option BlockPos
  second_position : Option BlockPos
  worldedit_clipboard : Option WorldEditClipboard
  worldedit_undo : List WorldEditUndo
  command_queue : List String
deriving DecidableEq

/-! ## Offline identity derivation (`Player::generate_offline_uuid`) -/

/-- `Cursor::read_u128::<BigEndian>` over the 16 digest bytes: big-endian
assembly into one natural number (each byte taken modulo 256). -/
def readU128BE (bytes : List Nat) : Nat :=
  bytes.foldl (fun acc b => acc * 256 + b % 256) 0

/-- Bitwise complement within a `u128`. -/
def u128not (n : Nat) : Nat :=
  (2 ^ 128 - 1) ^^^ n

/-- `Player::generate_offline_uuid`, with the external md5 crate's digest
function taken as a parameter producing the 16 digest bytes of its input
string.  The mask-and-set expression is the source's
`& (!(0xC << 60) & !(0xF << 76)) | ((0x8 << 60) | (0x3 << 76))`. -/
def generate_offline_uuid (md5compute : String → List Nat) (username : String) : Nat :=
  (readU128BE (md5compute ("OfflinePlayer:" ++ username))
      &&& (u128not (0xC <<< 60) &&& u128not (0xF <<< 76)))
    ||| ((0x8 <<< 60) ||| (0x3 <<< 76))

/-! ## Session creation and persistence (`create_player`, `load_player`, `save`) -/

/-- `Player::create_player`: the freshly initialized default session.  The two
`Instant::now()` reads are modelled by the `now` parameter. -/
def create_player (uuid : Nat) (username : String) (client : NetworkClient) (now : Nat) :
    Player where
  uuid := uuid
  username := username
  skin_parts := 0
  selected_slot := 0
  x := 128
  y := 128
  z := 128
  last_chunk_x := 8
  last_chunk_z := 8
  yaw := 0
  pitch := 0
  entity_id := client.id
  client := client
  inventory := List.replicate 46 none
  flying := false
  sprinting := false
  crouching := false
  gamemode := Gamemode.Creative
  fly_speed := 1
  walk_speed := 1
  on_ground := true
  last_keep_alive_received := now
  last_keep_alive_sent := now
  first_position := none
  second_position := none
  worldedit_clipboard := none
  worldedit_undo := []
  command_queue := []

/-- The body of the inventory-loading loop in `load_player`: `entry.nbt` is
mapped through the external nbt codec with `.unwrap()`, so a failed decode is a
panic (`none`). -/
def loadNbt (nbtDec : List Nat → Option NbtBlob) :
    Option (List Nat) → Option (Option NbtBlob)
  | none => some none
  | some data =>
    match nbtDec data with
    | none => none
    | some blob => some (some blob)

/-- One iteration of the inventory-loading loop of `load_player`: write the
reconstructed item stack at `inventory[entry.slot as usize]`.  `none` models a
panic: a failed nbt decode (the `.unwrap()`), or an out-of-range index. -/
def loadStep (nbtDec : List Nat → Option NbtBlob)
    (acc : Option (List (Option ItemStack))) (entry : InventoryEntry) :
    Option (List (Option ItemStack)) :=
  match acc with
  | none => none
  | some inv =>
    match loadNbt nbtDec entry.nbt with
    | none => none
    | some nbt =>
      let idx := usize_of_i8 entry.slot
      if idx < inv.length then
        some (inv.set idx (some
          { item_type := Item.from_id entry.id
            count := u8_of_i8 entry.count
            damage := u16_of_i16 entry.damage
            nbt := nbt }))
      else none

/-- The inventory-loading loop of `load_player`: starting from
`vec![None; 46]`, each persisted entry is written at `entry.slot as usize`. -/
def loadInventory (nbtDec : List Nat → Option NbtBlob) (entries : List InventoryEntry) :
    Option (List (Option ItemStack)) :=
  entries.foldl (loadStep nbtDec) (some (List.replicate 46 none))

/-- The deserialize-success branch of `load_player`: builds the session from a
decoded `PlayerData`.  `none` models a panic: a failed nbt decode, an
out-of-range persisted slot index, or a `position`/`rotation` vector too short
for the indexing the source performs. -/
def loadFromData (nbtDec : List Nat → Option NbtBlob) (uuid : Nat) (username : String)
    (client : NetworkClient) (now : Nat) (pd : PlayerData) : Option Player := do
  let inventory ← loadInventory nbtDec pd.inventory
  let x ← pd.position.get? 0
  let y ← pd.position.get? 1
  let z ← pd.position.get? 2
  let pitch ← pd.rotation.get? 0
  let yaw ← pd.rotation.get? 1
  some
    { uuid := uuid
      username := username
      skin_parts := 0
      inventory := inventory
      selected_slot := u32_of_i32 pd.selected_item_slot
      x := x
      y := y
      z := z
      pitch := pitch
      yaw := yaw
      last_chunk_x := 0
      last_chunk_z := 0
      entity_id := client.id
      client := client
      flying := pd.flying
      sprinting := false
      crouching := false
      gamemode := pd.gamemode
      on_ground := pd.on_ground
      walk_speed := pd.walk_speed
      fly_speed := pd.fly_speed
      last_keep_alive_received := now
      last_keep_alive_sent := now
      first_position := none
      second_position := none
      worldedit_clipboard := none
      worldedit_undo := []
      command_queue := [] }

/-- `Player::load_player`.  The file system read is modelled by the `file`
parameter (`none` when the file is absent or unreadable) and the external
bincode deserializer by `binDec` (`none` on a corrupt/incompatible record, the
branch that logs a warning and resets the session).  The overall `none` result
models a panic inside the deserialize-success branch. -/
def load_player (binDec : List Nat → Option PlayerData)
    (nbtDec : List Nat → Option NbtBlob) (uuid : Nat) (username : String)
    (client : NetworkClient) (now : Nat) (file : Option (List Nat)) : Option Player :=
  match file with
  | some data =>
    match binDec data with
    | none => some (create_player uuid username client now)
    | some pd => loadFromData nbtDec uuid username client now pd
  | none => some (create_player uuid username client now)

/-- One iteration of the save loop: an occupied slot `(slot, Some(item))`
becomes a persisted `InventoryEntry`; an empty slot produces nothing. -/
def entryOf (nbtEnc : NbtBlob → List Nat) (si : Nat × Option ItemStack) :
    Option InventoryEntry :=
  si.2.map fun item =>
    { count := i8_of_u8 item.count
      id := item.item_type.get_id
      damage := i16_of_u16 item.damage
      slot := i8_of_u8 si.1
      nbt := item.nbt.map nbtEnc }

/-- The inventory-flattening loop of `Player::save`: iterate the sparse
inventory with its slot indices and keep one entry per occupied slot. -/
def mkInventoryEntries (nbtEnc : NbtBlob → List Nat) (inv : List (Option ItemStack)) :
    List InventoryEntry :=
  inv.enum.filterMap (entryOf nbtEnc)

/-- The `PlayerData` record `Player::save` serializes. -/
def savePlayerData (nbtEnc : NbtBlob → List Nat) (p : Player) : PlayerData where
  fly_speed := p.fly_speed
  flying := p.flying
  gamemode := p.gamemode
  inventory := mkInventoryEntries nbtEnc p.inventory
  motion := [0, 0, 0]
  on_ground := p.on_ground
  position := [p.x, p.y, p.z]
  rotation := [p.pitch, p.yaw]
  selected_item_slot := i32_of_u32 p.selected_slot
  walk_speed := p.walk_speed

/-- The caller-observable outcome of `Player::save`: either the function
returned normally (and the file now holds the written bytes), or one of its
`.unwrap()` calls failed and the thread panicked — no value reaches the
caller. -/
inductive SaveOutcome where
  | returned (written : List Nat)
  | panicked
deriving DecidableEq

/-- `Player::save`.  The external bincode serializer is the total parameter
`binEnc` (its `Result` cannot fail for this record shape and is immediately
unwrapped), the nbt encoder is `nbtEnc`; `openOk`/`writeOk` say whether the
`OpenOptions::open` and `write_all` calls succeed — each is followed by
`.unwrap()` in the source, so a failure is a panic. -/
def Player.save (p : Player) (binEnc : PlayerData → List Nat)
    (nbtEnc : NbtBlob → List Nat) (openOk writeOk : Bool) : SaveOutcome :=
  if !openOk then .panicked
  else
    let data := binEnc (savePlayerData nbtEnc p)
    if !writeOk then .panicked else .returned data

/-! ## Per-tick update, keep-alive, orientation helpers -/

/-- The `json!({ "text": "Timed out." }).to_string()` payload of the timeout
disconnect. -/
def timedOutReason : String := "\x7b\"text\":\"Timed out.\"\x7d"

/-- `Player::kick`: sends the disconnect packet; tearing down the stream stays
the caller's responsibility. -/
def Player.kick (p : Player) (reason : String) : Player × List Packet :=
  (p, [Packet.disconnect reason])

/-- `Player::send_keep_alive`: sends a keep-alive whose id is the current Unix
time in seconds and records the send instant. -/
def Player.send_keep_alive (p : Player) (nowMono nowUnix : Nat) : Player × List Packet :=
  ({ p with last_keep_alive_sent := nowMono }, [Packet.keepAlive nowUnix])

/-- The result of one `Player::update` call: the mutated session, the packets
sent through the client, and the returned view-position flag. -/
structure UpdateResult where
  player : Player
  packets : List Packet
  crossed : Bool
deriving DecidableEq

/-- `Player::update`.  `nowMono` is the monotonic clock in whole seconds (what
`Instant::elapsed().as_secs()` measures against the stored instants), `nowUnix`
the wall clock for the keep-alive payload. -/
def Player.update (p : Player) (nowMono nowUnix : Nat) : UpdateResult :=
  let r1 :=
    if nowMono - p.last_keep_alive_received > 30 then p.kick timedOutReason else (p, [])
  let r2 :=
    if nowMono - r1.1.last_keep_alive_sent > 10 then r1.1.send_keep_alive nowMono nowUnix
    else (r1.1, [])
  { player := r2.1
    packets := r1.2 ++ r2.2
    crossed := (chunkAt r2.1.x != r2.1.last_chunk_x) || (chunkAt r2.1.z != r2.1.last_chunk_z) }

/-- Saturating `f32.floor() as i32` (the floor value is already an integer;
the cast saturates to the `i32` range). -/
def floor_as_i32 (q : ℚ) : Int :=
  max (-(2 ^ 31 : Int)) (min ((2 ^ 31 : Int) - 1) (ratFloor q))

/-- `Player::get_direction`: `((yaw / 90.0 + 0.5).floor() as i32 & 3).abs()`.
`& 3` on a two's-complement `i32` is the Euclidean remainder modulo 4. -/
def Player.get_direction (p : Player) : BlockDirection :=
  match ((floor_as_i32 (p.yaw / 90 + 1 / 2)).emod 4).natAbs with
  | 0 => .South
  | 1 => .West
  | 2 => .North
  | 3 => .East
  | _ => .South

/-- `f32::rem_euclid(360.0)`: the representative of the value modulo 360 in
`[0, 360)`. -/
def yawRemEuclid (q : ℚ) : ℚ :=
  q - 360 * ((ratFloor (q / 360) : Int) : ℚ)

/-- `Player::get_facing`. -/
def Player.get_facing (p : Player) : BlockFacing :=
  let yaw := yawRemEuclid p.yaw
  let pitch := p.pitch
  if pitch ≤ -70 then .Up
  else if 70 ≤ pitch then .Down
  else if 45 ≤ yaw ∧ yaw ≤ 135 then .West
  else if 135 ≤ yaw ∧ yaw ≤ 225 then .North
  else if 225 ≤ yaw ∧ yaw ≤ 315 then .East
  else .South

/-! ## Worldedit selection helpers -/

/-- `Player::worldedit_pos_on_side`.  The directional three-way comparison
`BlockPos::compare_direction` lives in the blocks module, outside the shown
source; per §6 of the spec it is an external capability, so it is taken as the
parameter `cmp`.  The source first returns `None` when either corner is unset,
then unwraps both and matches on the comparison. -/
def worldedit_pos_on_side (cmp : BlockPos → BlockPos → BlockFacing → Ordering)
    (p : Player) (facing : BlockFacing) : Option WorldEditPosition :=
  match p.first_position, p.second_position with
  | some pos1, some pos2 =>
    match cmp pos1 pos2 facing with
    | .eq => some .First
    | .lt => some .First
    | .gt => some .Second
  | _, _ => none

/-! ## Claim-side definitions (stated from the specification's words, for
comparison against the source-derived definitions) -/

/-- The grid cell claim C1 describes: arithmetic-shift of the true `floor` of
the coordinate right by 4 bits — floor division by 16 of the floor, rounding
toward negative infinity.  Stated from the claim's words; the source's cell is
`chunkAt`, which truncates toward zero before shifting. -/
def specFloorCell (q : ℚ) : Int :=
  Int.fdiv (ratFloor q) 16

/-! ## Concrete objects used by witnesses and counterexamples -/

/-- A neutral concrete session. -/
def basePlayer : Player :=
  create_player 0 "Steve" ⟨1⟩ 0

/-- A session standing just west of the origin: x = −0.5, recorded cell
(−1, 0) — the recorded cell agrees with the floor-derived cell of the
position, but not with the truncation-derived cell the source computes. -/
def pNeg : Player :=
  { basePlayer with x := -1/2, z := 0, last_chunk_x := -1, last_chunk_z := 0 }

/-- A session whose keep-alive timestamps are both 100 (seconds, monotonic). -/
def pLive : Player :=
  create_player 0 "Steve" ⟨1⟩ 100

/-- A directional comparison that always answers `lt`. -/
def cmpLt : BlockPos → BlockPos → BlockFacing → Ordering :=
  fun _ _ _ => .lt

/-- A session with both selection corners set. -/
def pSel : Player :=
  { basePlayer with first_position := some ⟨0, 0, 0⟩, second_position := some ⟨10, 0, 0⟩ }

/-- A persisted record whose only inventory entry carries an auxiliary (nbt)
payload — the byte 0xFF, which a real nbt decoder rejects. -/
def pdBadNbt : PlayerData where
  on_ground := true
  flying := false
  motion := [0, 0, 0]
  position := [128, 128, 128]
  rotation := [0, 0]
  inventory := [{ id := 1, slot := 0, count := 1, damage := 0, nbt := some [255] }]
  selected_item_slot := 0
  fly_speed := 1
  walk_speed := 1
  gamemode := .Creative

/-- A bincode deserializer that accepts the stored bytes as `pdBadNbt`. -/
def binDecBad : List Nat → Option PlayerData :=
  fun _ => some pdBadNbt

/-- An nbt decoder that rejects the payload (decode failure). -/
def nbtDecFail : List Nat → Option NbtBlob :=
  fun _ => none

/-- A trivial bincode serializer (the serialized bytes are irrelevant to the
save-failure analysis). -/
def binEncTriv : PlayerData → List Nat :=
  fun _ => []

/-- A trivial nbt encoder. -/
def nbtEncTriv : NbtBlob → List Nat :=
  fun _ => []

/-- A well-formed persisted record placing the player at (20, 64, 33). -/
def pdC10 : PlayerData where
  on_ground := true
  flying := true
  motion := [0, 0, 0]
  position := [20, 64, 33]
  rotation := [5, 7]
  inventory := []
  selected_item_slot := 2
  fly_speed := 1
  walk_speed := 1
  gamemode := .Creative

/-- A bincode deserializer that accepts the stored bytes as `pdC10`. -/
def binDecC10 : List Nat → Option PlayerData :=
  fun _ => some pdC10

/-- An nbt decoder for a record with no payloads (never consulted). -/
def nbtDecC10 : List Nat → Option NbtBlob :=
  fun _ => none

/-- The session `load_player` builds from `pdC10`. -/
def pC10 : Player where
  uuid := 9
  username := "Alex"
  skin_parts := 0
  inventory := List.replicate 46 none
  selected_slot := 2
  x := 20
  y := 64
  z := 33
  last_chunk_x := 0
  last_chunk_z := 0
  yaw := 7
  pitch := 5
  flying := true
  sprinting := false
  crouching := false
  on_ground := true
  fly_speed := 1
  walk_speed := 1
  gamemode := .Creative
  entity_id := 4
  client := ⟨4⟩
  last_keep_alive_received := 3
  last_keep_alive_sent := 3
  first_position := none
  second_position := none
  worldedit_clipboard := none
  worldedit_undo := []
  command_queue := []

/-- An item stack with an auxiliary payload, stored in slot 0. -/
def itSlot0 : ItemStack :=
  { item_type := ⟨5⟩, count := 3, damage := 7, nbt := some [9, 250] }

/-- An item stack with boundary count/damage values, stored in slot 45. -/
def itSlot45 : ItemStack :=
  { item_type := ⟨2⟩, count := 255, damage := 65535, nbt := none }

/-- A session whose 46-slot inventory occupies exactly the boundary slots 0
and 45. -/
def pRt : Player :=
  { (create_player 77 "Roundtrip" ⟨2⟩ 0) with
      inventory := some itSlot0 :: (List.replicate 44 none ++ [some itSlot45])
      selected_slot := 4
      x := 3/2
      y := 64
      z := -7/4
      pitch := 10
      yaw := 20
      flying := true
      on_ground := false
      fly_speed := 2
      walk_speed := 3
      gamemode := .Spectator }

/-- An nbt codec pair whose decode inverts its encode (the payload bytes are
carried verbatim). -/
def nbtEncId : NbtBlob → List Nat :=
  fun b => b

/-- The matching nbt decoder. -/
def nbtDecSome : List Nat → Option NbtBlob :=
  fun b => some b

/-- A bincode codec pair that round-trips the one record the round-trip
witness stores. -/
def binEncRt : PlayerData → List Nat :=
  fun _ => []

/-- The matching bincode deserializer. -/
def binDecRt : List Nat → Option PlayerData :=
  fun _ => some (savePlayerData nbtEncId pRt)

/-- The version/variant clear-mask of `generate_offline_uuid`:
`!(0xC << 60) & !(0xF << 76)` within a `u128`. -/
def maskM : Nat :=
  u128not (0xC <<< 60) &&& u128not (0xF <<< 76)

/-- The version/variant set-mask of `generate_offline_uuid`:
`(0x8 << 60) | (0x3 << 76)`. -/
def maskS : Nat :=
  (0x8 <<< 60) ||| (0x3 <<< 76)

/-! ## Helper lemmas -/

theorem update_crossed_iff (p : Player) (nowMono nowUnix : Nat) :
    (p.update nowMono nowUnix).crossed = true ↔
      (chunkAt p.x ≠ p.last_chunk_x ∨ chunkAt p.z ≠ p.last_chunk_z) := by
  unfold Player.update Player.kick Player.send_keep_alive
  by_cases h1 : nowMono - p.last_keep_alive_received > 30 <;>
    by_cases h2 : nowMono - p.last_keep_alive_sent > 10 <;>
      simp [h1, h2, bne_iff_ne]

theorem update_keeps_last_chunk (p : Player) (nowMono nowUnix : Nat) :
    (p.update nowMono nowUnix).player.last_chunk_x = p.last_chunk_x ∧
    (p.update nowMono nowUnix).player.last_chunk_z = p.last_chunk_z := by
  unfold Player.update Player.kick Player.send_keep_alive
  by_cases h1 : nowMono - p.last_keep_alive_received > 30 <;>
    by_cases h2 : nowMono - p.last_keep_alive_sent > 10 <;>
      simp [h1, h2]

theorem chunkAt_pNeg_x : chunkAt pNeg.x = 0 := by
  show chunkAt (-1/2 : ℚ) = 0
  unfold chunkAt f64_as_i32 ratTrunc i32_asr4
  rw [if_pos (by norm_num), show ⌈(-1/2 : ℚ)⌉ = 0 by norm_num]
  decide

theorem specFloorCell_pNeg_x : specFloorCell pNeg.x = -1 := by
  show specFloorCell (-1/2 : ℚ) = -1
  unfold specFloorCell ratFloor
  rw [show ⌊(-1/2 : ℚ)⌋ = -1 by norm_num]
  decide

theorem specFloorCell_zero : specFloorCell 0 = 0 := by
  unfold specFloorCell ratFloor
  rw [show ⌊(0 : ℚ)⌋ = 0 by norm_num]
  decide

/-! ## Claim theorems -/

/-- **C1, counterexample.** At x = −0.5, z = 0 with recorded cell (−1, 0) the
claim's floor-derived cells equal the recorded cells (floor(−0.5) ≫ 4 = −1),
so the claim predicts `update` returns false; the source truncates −0.5 to 0
before shifting and returns true.  The claimed equivalence fails at this
session. -/
theorem update_floor_cell_claim_false :
    ¬ (((pNeg.update 0 0).crossed = true) ↔
        (specFloorCell pNeg.x ≠ pNeg.last_chunk_x ∨
          specFloorCell pNeg.z ≠ pNeg.last_chunk_z)) := by
  intro h
  have h1 : (pNeg.update 0 0).crossed = true := by
    rw [update_crossed_iff]
    exact Or.inl (by rw [chunkAt_pNeg_x]; decide)
  rcases h.mp h1 with hc | hc
  · exact hc (by rw [specFloorCell_pNeg_x]; rfl)
  · exact hc (by exact specFloorCell_zero)

/-- **C1 (amended).** `update` returns true iff the grid cell obtained by
arithmetic-shifting the saturating truncation-toward-zero `i32` cast of x
right by 4 bits differs from `last_chunk_x`, or likewise for z — truncation
toward zero, not floor, for negative coordinates — and `update` itself does
not modify the recorded cell. -/
theorem update_view_cell_trunc (p : Player) (nowMono nowUnix : Nat) :
    ((p.update nowMono nowUnix).crossed = true ↔
      (chunkAt p.x ≠ p.last_chunk_x ∨ chunkAt p.z ≠ p.last_chunk_z)) ∧
    (p.update nowMono nowUnix).player.last_chunk_x = p.last_chunk_x ∧
    (p.update nowMono nowUnix).player.last_chunk_z = p.last_chunk_z :=
  ⟨update_crossed_iff p nowMono nowUnix,
    (update_keeps_last_chunk p nowMono nowUnix).1,
    (update_keeps_last_chunk p nowMono nowUnix).2⟩

/-- **C2 (code bug).** A stored record that bincode-deserializes successfully
but whose inventory entry carries an auxiliary (nbt) payload the nbt codec
rejects makes `load_player` panic (the `.unwrap()` in the inventory loop):
no session — in particular not the default one — is returned. -/
theorem load_player_panics_on_bad_nbt :
    load_player binDecBad nbtDecFail 7 "Steve" ⟨3⟩ 0 (some [0]) = none := rfl

/-- **C5.** On each `update`: if more than 30 seconds elapsed since the last
keep-alive was received, a disconnect with the "Timed out." reason is sent; if
more than 10 seconds elapsed since the last keep-alive was sent and the
last-received is within bounds, exactly one keep-alive carrying the current
Unix time is sent and the send timestamp is reset to now; if the send
timestamp is within bounds, no keep-alive is sent and it is unchanged. -/
theorem update_keep_alive_protocol (p : Player) (nowMono nowUnix : Nat) :
    (nowMono - p.last_keep_alive_received > 30 →
        Packet.disconnect timedOutReason ∈ (p.update nowMono nowUnix).packets) ∧
    (nowMono - p.last_keep_alive_sent > 10 → nowMono - p.last_keep_alive_received ≤ 30 →
        (p.update nowMono nowUnix).packets = [Packet.keepAlive nowUnix] ∧
        (p.update nowMono nowUnix).player.last_keep_alive_sent = nowMono) ∧
    (nowMono - p.last_keep_alive_sent ≤ 10 →
        (∀ i, Packet.keepAlive i ∉ (p.update nowMono nowUnix).packets) ∧
        (p.update nowMono nowUnix).player.last_keep_alive_sent
          = p.last_keep_alive_sent) := by
  unfold Player.update Player.kick Player.send_keep_alive
  by_cases h1 : nowMono - p.last_keep_alive_received > 30 <;>
    by_cases h2 : nowMono - p.last_keep_alive_sent > 10 <;>
      simp [h1, h2] <;> omega

/-- **C5, witness.** Concrete instances: last-received 31 seconds in the past
triggers the disconnect; last-sent 11 seconds in the past (received within
bounds) produces exactly one keep-alive stamped with the wall clock and resets
the send timestamp; last-sent 5 seconds in the past produces none. -/
theorem update_keep_alive_protocol_witness :
    Packet.disconnect timedOutReason ∈ (pLive.update 131 7).packets ∧
    ((pLive.update 111 7).packets = [Packet.keepAlive 7] ∧
      (pLive.update 111 7).player.last_keep_alive_sent = 111) ∧
    ((∀ i, Packet.keepAlive i ∉ (pLive.update 105 7).packets) ∧
      (pLive.update 105 7).player.last_keep_alive_sent = pLive.last_keep_alive_sent) :=
  ⟨(update_keep_alive_protocol pLive 131 7).1 (by decide),
    (update_keep_alive_protocol pLive 111 7).2.1 (by decide) (by decide),
    (update_keep_alive_protocol pLive 105 7).2.2 (by decide)⟩

/-- **C6, counterexample.** When the file fails to open, `save` panics: the
`.unwrap()` aborts the thread, so no value — in particular no failure value
the caller could inspect to retry, alert, or drop the session — is returned
to the caller. -/
theorem save_failure_not_returned :
    basePlayer.save binEncTriv nbtEncTriv false true = SaveOutcome.panicked := rfl

/-- **C6 (amended).** A failure to open or write the player's file makes
`save` panic: the failure is never silently swallowed (no normal return
happens), but it aborts via `unwrap` rather than being propagated to the
caller as a recoverable value. -/
theorem save_io_failure_panics (p : Player) (binEnc : PlayerData → List Nat)
    (nbtEnc : NbtBlob → List Nat) (openOk writeOk : Bool)
    (h : openOk = false ∨ writeOk = false) :
    p.save binEnc nbtEnc openOk writeOk = SaveOutcome.panicked := by
  rcases h with h | h <;> subst h
  · rfl
  · cases openOk <;> rfl

/-- **C6, witness.** A failing write on an otherwise-open file panics. -/
theorem save_io_failure_panics_witness :
    basePlayer.save binEncTriv nbtEncTriv true false = SaveOutcome.panicked :=
  save_io_failure_panics basePlayer binEncTriv nbtEncTriv true false (Or.inr rfl)

/-- **C7.** `worldedit_pos_on_side` returns nothing when either selection
corner is unset; with both corners set it returns First when the directional
three-way comparison of the first corner against the second along the facing
axis is equal or less, and Second when it is greater. -/
theorem worldedit_pos_on_side_near_corner
    (cmp : BlockPos → BlockPos → BlockFacing → Ordering) (p : Player)
    (facing : BlockFacing) :
    ((p.first_position = none ∨ p.second_position = none) →
        worldedit_pos_on_side cmp p facing = none) ∧
    (∀ pos1 pos2, p.first_position = some pos1 → p.second_position = some pos2 →
        ((cmp pos1 pos2 facing = .eq ∨ cmp pos1 pos2 facing = .lt) →
            worldedit_pos_on_side cmp p facing = some .First) ∧
        (cmp pos1 pos2 facing = .gt →
            worldedit_pos_on_side cmp p facing = some .Second)) := by
  unfold worldedit_pos_on_side
  constructor
  · rintro (h | h)
    · rw [h]
    · rw [h]
      rcases p.first_position with _ | pos1 <;> rfl
  · intro pos1 pos2 h1 h2
    rw [h1, h2]
    dsimp only
    constructor
    · rintro (hc | hc) <;> rw [hc]
    · intro hc
      rw [hc]

/-- **C7, witness.** With corners (0,0,0) and (10,0,0) and a comparison
ranking the first corner lower, the near corner is First. -/
theorem worldedit_pos_on_side_near_corner_witness :
    worldedit_pos_on_side cmpLt pSel .North = some .First :=
  ((worldedit_pos_on_side_near_corner cmpLt pSel .North).2
      ⟨0, 0, 0⟩ ⟨10, 0, 0⟩ rfl rfl).1 (Or.inr rfl)

/-- **C8.** With no persisted file, `load_player` returns the freshly
initialized session: position (128, 128, 128), last grid cell (8, 8), the
connection's numeric handle as its entity handle, creative game mode, fly and
walk speeds 1, and a 46-slot inventory with every slot empty. -/
theorem load_player_absent_file_defaults (binDec : List Nat → Option PlayerData)
    (nbtDec : List Nat → Option NbtBlob) (uuid : Nat) (username : String)
    (client : NetworkClient) (now : Nat) :
    load_player binDec nbtDec uuid username client now none
      = some (create_player uuid username client now) ∧
    (create_player uuid username client now).x = 128 ∧
    (create_player uuid username client now).y = 128 ∧
    (create_player uuid username client now).z = 128 ∧
    (create_player uuid username client now).last_chunk_x = 8 ∧
    (create_player uuid username client now).last_chunk_z = 8 ∧
    (create_player uuid username client now).entity_id = client.id ∧
    (create_player uuid username client now).gamemode = Gamemode.Creative ∧
    (create_player uuid username client now).fly_speed = 1 ∧
    (create_player uuid username client now).walk_speed = 1 ∧
    (create_player uuid username client now).inventory = List.replicate 46 none :=
  ⟨rfl, rfl, rfl, rfl, rfl, rfl, rfl, rfl, rfl, rfl, rfl⟩

theorem masked_version_nibble (d : Nat) :
    (((d &&& maskM) ||| maskS) >>> 76) &&& 15 = 3 := by
  apply Nat.eq_of_testBit_eq
  intro i
  rcases Nat.lt_or_ge i 4 with hi | hi
  · interval_cases i <;>
      simp only [Nat.testBit_and, Nat.testBit_or, Nat.testBit_shiftRight] <;>
      norm_num <;>
      simp [show maskM.testBit 76 = false from by decide,
        show maskM.testBit 77 = false from by decide,
        show maskM.testBit 78 = false from by decide,
        show maskM.testBit 79 = false from by decide,
        show maskS.testBit 76 = true from by decide,
        show maskS.testBit 77 = true from by decide,
        show maskS.testBit 78 = false from by decide,
        show maskS.testBit 79 = false from by decide] <;>
      decide
  · have h15 : Nat.testBit 15 i = false :=
      Nat.testBit_lt_two_pow (lt_of_lt_of_le (by norm_num)
        (Nat.pow_le_pow_right (by norm_num) hi))
    have h3 : Nat.testBit 3 i = false :=
      Nat.testBit_lt_two_pow (lt_of_lt_of_le (by norm_num)
        (Nat.pow_le_pow_right (by norm_num) hi))
    simp [Nat.testBit_and, h15, h3]

theorem masked_variant_bits (d : Nat) :
    (((d &&& maskM) ||| maskS) >>> 62) &&& 3 = 2 := by
  apply Nat.eq_of_testBit_eq
  intro i
  rcases Nat.lt_or_ge i 2 with hi | hi
  · interval_cases i <;>
      simp only [Nat.testBit_and, Nat.testBit_or, Nat.testBit_shiftRight] <;>
      norm_num <;>
      simp [show maskM.testBit 62 = false from by decide,
        show maskM.testBit 63 = false from by decide,
        show maskS.testBit 62 = false from by decide,
        show maskS.testBit 63 = true from by decide] <;>
      decide
  · have h3 : Nat.testBit 3 i = false :=
      Nat.testBit_lt_two_pow (lt_of_lt_of_le (by norm_num)
        (Nat.pow_le_pow_right (by norm_num) hi))
    have h2 : Nat.testBit 2 i = false :=
      Nat.testBit_lt_two_pow (lt_of_lt_of_le (by norm_num)
        (Nat.pow_le_pow_right (by norm_num) hi))
    simp [Nat.testBit_and, h3, h2]

theorem maskS_lt : maskS < 2 ^ 128 := by decide

/-- **C3.** The offline-identity derivation is a pure function of the display
name; its value is exactly the big-endian interpretation of the MD5 digest of
`"OfflinePlayer:" + name` with the clear/set masks of the source applied; the
result is a 128-bit value whose version nibble (bits 76–79) decodes to 3 and
whose variant bits (the top two bits of byte 8, bits 62–63) decode to the
pattern 10 — an RFC-4122 version-3, variant-10 UUID — for every digest. -/
theorem generate_offline_uuid_rfc4122 (md5compute : String → List Nat)
    (username : String) :
    generate_offline_uuid md5compute username
        = generate_offline_uuid md5compute username ∧
    generate_offline_uuid md5compute username
        = ((readU128BE (md5compute ("OfflinePlayer:" ++ username)) &&& maskM) ||| maskS) ∧
    generate_offline_uuid md5compute username < 2 ^ 128 ∧
    (generate_offline_uuid md5compute username >>> 76) &&& 15 = 3 ∧
    (generate_offline_uuid md5compute username >>> 62) &&& 3 = 2 := by
  refine ⟨rfl, rfl, ?_, masked_version_nibble _, masked_variant_bits _⟩
  exact Nat.or_lt_two_pow
    (lt_of_le_of_lt Nat.and_le_right (by decide)) maskS_lt

/-- **C9.** `get_direction` maps yaw 0, 90, 180, 270 to South, West, North,
East (the source's `floor(yaw/90 + 0.5)` is round-half-up, i.e. the documented
rounding), wraps modulo 4, and ties toward South on the whole band around
0/360 (yaw in [−45, 45) and in [315, 405)); `get_facing` returns Down for any
pitch of at least 70 degrees regardless of yaw, and North at pitch 0, yaw
200. -/
theorem direction_and_facing_values (p : Player) :
    (p.yaw = 0 → p.get_direction = BlockDirection.South) ∧
    (p.yaw = 90 → p.get_direction = BlockDirection.West) ∧
    (p.yaw = 180 → p.get_direction = BlockDirection.North) ∧
    (p.yaw = 270 → p.get_direction = BlockDirection.East) ∧
    (-45 ≤ p.yaw → p.yaw < 45 → p.get_direction = BlockDirection.South) ∧
    (315 ≤ p.yaw → p.yaw < 405 → p.get_direction = BlockDirection.South) ∧
    (70 ≤ p.pitch → p.get_facing = BlockFacing.Down) ∧
    (p.pitch = 0 → p.yaw = 200 → p.get_facing = BlockFacing.North) := by
  refine ⟨fun h => ?_, fun h => ?_, fun h => ?_, fun h => ?_,
    fun ha hb => ?_, fun ha hb => ?_, fun h => ?_, fun hp hy => ?_⟩
  · unfold Player.get_direction floor_as_i32 ratFloor
    rw [h, show ⌊(0 : ℚ) / 90 + 1 / 2⌋ = 0 from by norm_num]
    rfl
  · unfold Player.get_direction floor_as_i32 ratFloor
    rw [h, show ⌊(90 : ℚ) / 90 + 1 / 2⌋ = 1 from by norm_num]
    rfl
  · unfold Player.get_direction floor_as_i32 ratFloor
    rw [h, show ⌊(180 : ℚ) / 90 + 1 / 2⌋ = 2 from by norm_num]
    rfl
  · unfold Player.get_direction floor_as_i32 ratFloor
    rw [h, show ⌊(270 : ℚ) / 90 + 1 / 2⌋ = 3 from by norm_num]
    rfl
  · have hf : ⌊p.yaw / 90 + 1 / 2⌋ = 0 := by
      rw [Int.floor_eq_iff]
      constructor
      · push_cast
        linarith
      · push_cast
        linarith
    unfold Player.get_direction floor_as_i32 ratFloor
    rw [hf]
    rfl
  · have hf : ⌊p.yaw / 90 + 1 / 2⌋ = 4 := by
      rw [Int.floor_eq_iff]
      constructor
      · push_cast
        linarith
      · push_cast
        linarith
    unfold Player.get_direction floor_as_i32 ratFloor
    rw [hf]
    rfl
  · simp only [Player.get_facing]
    rw [if_neg (by intro hbad; linarith), if_pos h]
  · have hyr : yawRemEuclid 200 = 200 := by
      unfold yawRemEuclid ratFloor
      rw [show ⌊(200 : ℚ) / 360⌋ = 0 from by norm_num]
      norm_num
    simp only [Player.get_facing]
    rw [hp, hy, hyr]
    norm_num

/-- **C9, witness.** Concrete sessions: yaw 90 looks West; pitch 70 faces
Down; pitch 0, yaw 200 faces North. -/
theorem direction_and_facing_values_witness :
    ({ basePlayer with yaw := 90 } : Player).get_direction = BlockDirection.West ∧
    ({ basePlayer with yaw := 33, pitch := 70 } : Player).get_facing = BlockFacing.Down ∧
    ({ basePlayer with yaw := 200 } : Player).get_facing = BlockFacing.North :=
  ⟨(direction_and_facing_values _).2.1 rfl,
    (direction_and_facing_values _).2.2.2.2.2.2.1 le_rfl,
    (direction_and_facing_values _).2.2.2.2.2.2.2 rfl rfl⟩

/-- **C10.** Whenever the persisted record deserializes successfully and the
session construction completes, the returned session has its last-known grid
cell set to (0, 0) — not derived from the persisted position — and empty
selection corners, clipboard, undo history, and command queue; consequently
the first `update` after such a load reports a grid-cell crossing exactly when
the loaded position's cell is not (0, 0). -/
theorem load_player_resets_transient_state (binDec : List Nat → Option PlayerData)
    (nbtDec : List Nat → Option NbtBlob) (uuid : Nat) (username : String)
    (client : NetworkClient) (now : Nat) (data : List Nat) (pd : PlayerData)
    (p' : Player) (nowMono nowUnix : Nat)
    (h1 : binDec data = some pd)
    (h2 : loadFromData nbtDec uuid username client now pd = some p') :
    load_player binDec nbtDec uuid username client now (some data) = some p' ∧
    p'.last_chunk_x = 0 ∧ p'.last_chunk_z = 0 ∧
    p'.first_position = none ∧ p'.second_position = none ∧
    p'.worldedit_clipboard = none ∧ p'.worldedit_undo = [] ∧
    p'.command_queue = [] ∧
    ((p'.update nowMono nowUnix).crossed = true ↔
      (chunkAt p'.x ≠ 0 ∨ chunkAt p'.z ≠ 0)) := by
  have hload : load_player binDec nbtDec uuid username client now (some data)
      = some p' := by
    unfold load_player
    dsimp only
    rw [h1]
    exact h2
  unfold loadFromData at h2
  rcases Option.bind_eq_some.mp h2 with ⟨inv, hinv, h2⟩
  rcases Option.bind_eq_some.mp h2 with ⟨x0, hx0, h2⟩
  rcases Option.bind_eq_some.mp h2 with ⟨y0, hy0, h2⟩
  rcases Option.bind_eq_some.mp h2 with ⟨z0, hz0, h2⟩
  rcases Option.bind_eq_some.mp h2 with ⟨pt0, hpt0, h2⟩
  rcases Option.bind_eq_some.mp h2 with ⟨yw0, hyw0, h2⟩
  injection h2 with h2
  subst h2
  exact ⟨hload, rfl, rfl, rfl, rfl, rfl, rfl, rfl,
    by simpa using update_crossed_iff _ nowMono nowUnix⟩

/-- **C10, witness.** A record at position (20, 64, 33) loads to a session
with cell (0, 0) and empty transient state, whose first update crossing test
compares against (0, 0). -/
theorem load_player_resets_transient_state_witness :
    load_player binDecC10 nbtDecC10 9 "Alex" ⟨4⟩ 3 (some [1]) = some pC10 ∧
    pC10.last_chunk_x = 0 ∧ pC10.last_chunk_z = 0 ∧
    pC10.first_position = none ∧ pC10.second_position = none ∧
    pC10.worldedit_clipboard = none ∧ pC10.worldedit_undo = [] ∧
    pC10.command_queue = [] ∧
    ((pC10.update 50 60).crossed = true ↔
      (chunkAt pC10.x ≠ 0 ∨ chunkAt pC10.z ≠ 0)) :=
  load_player_resets_transient_state binDecC10 nbtDecC10 9 "Alex" ⟨4⟩ 3 [1] pdC10
    pC10 50 60 rfl rfl

theorem u8_roundtrip (n : Nat) (h : n < 256) : u8_of_i8 (i8_of_u8 n) = n := by
  unfold u8_of_i8 i8_of_u8
  split_ifs with h1 <;> omega

theorem u16_roundtrip (n : Nat) (h : n < 65536) : u16_of_i16 (i16_of_u16 n) = n := by
  unfold u16_of_i16 i16_of_u16
  split_ifs with h1 <;> omega

theorem u32_roundtrip (n : Nat) (h : n < 2 ^ 32) : u32_of_i32 (i32_of_u32 n) = n := by
  unfold u32_of_i32 i32_of_u32
  split_ifs with h1 <;> omega

theorem usize_i8_small (n : Nat) (h : n < 128) : usize_of_i8 (i8_of_u8 n) = n := by
  unfold usize_of_i8 i8_of_u8
  rw [if_pos (show n % 256 < 128 by omega)]
  omega

theorem take_set_same {α : Type} (l : List α) (n : Nat) (a : α) :
    (l.set n a).take n = l.take n := by
  induction l generalizing n with
  | nil => simp
  | cons b t ih =>
    cases n with
    | zero => simp
    | succ m => simp [ih]

theorem foldl_loadStep_save (nbtEnc : NbtBlob → List Nat)
    (nbtDec : List Nat → Option NbtBlob) (inv : List (Option ItemStack)) :
    ∀ (n : Nat) (A : List (Option ItemStack)), A.length = 46 → n + inv.length = 46 →
      (∀ j, n ≤ j → j < 46 → A[j]? = some none) →
      (∀ it ∈ inv.reduceOption, it.count < 256 ∧ it.damage < 65536) →
      (∀ it ∈ inv.reduceOption, ∀ b, it.nbt = some b → nbtDec (nbtEnc b) = some b) →
      List.foldl (loadStep nbtDec) (some A)
          ((List.enumFrom n inv).filterMap (entryOf nbtEnc))
        = some (A.take n ++ inv) := by
  induction inv with
  | nil =>
    intro n A hA hn _ _ _
    have hn46 : n = 46 := by simpa using hn
    subst hn46
    simp [List.take_of_length_le (le_of_eq hA)]
  | cons head t ih =>
    intro n A hA hn hz hwf hnbt
    have hn45 : n ≤ 45 := by
      simp only [List.length_cons] at hn
      omega
    rw [List.enumFrom_cons, List.filterMap_cons]
    cases head with
    | none =>
      rw [show entryOf nbtEnc (n, (none : Option ItemStack)) = none from rfl]
      rw [ih (n + 1) A hA (by simp only [List.length_cons] at hn; omega)
        (fun j hj hj2 => hz j (by omega) hj2)
        (fun it2 hit2 => hwf it2 (by rw [List.reduceOption_cons_of_none]; exact hit2))
        (fun it2 hit2 => hnbt it2 (by rw [List.reduceOption_cons_of_none]; exact hit2))]
      rw [List.take_succ, show A[n]? = some none from hz n le_rfl (by omega)]
      simp
    | some it =>
      rw [show entryOf nbtEnc (n, some it) = some
          { count := i8_of_u8 it.count, id := it.item_type.get_id,
            damage := i16_of_u16 it.damage, slot := i8_of_u8 n,
            nbt := it.nbt.map nbtEnc } from rfl]
      rw [List.foldl_cons]
      obtain ⟨hc, hd⟩ := hwf it
        (by rw [List.reduceOption_cons_of_some]; exact List.mem_cons_self _ _)
      have hln : loadNbt nbtDec (it.nbt.map nbtEnc) = some it.nbt := by
        cases hnb : it.nbt with
        | none => rfl
        | some b =>
          have hb := hnbt it
            (by rw [List.reduceOption_cons_of_some]; exact List.mem_cons_self _ _) b hnb
          simp [loadNbt, hb]
      have hrecon : ItemStack.mk (Item.from_id it.item_type.get_id)
          (u8_of_i8 (i8_of_u8 it.count)) (u16_of_i16 (i16_of_u16 it.damage))
          it.nbt = it := by
        obtain ⟨ty, c, dm, nb⟩ := it
        simp only at hc hd
        simp [Item.from_id, Item.get_id, u8_roundtrip c hc, u16_roundtrip dm hd]
      have hstep : loadStep nbtDec (some A)
          { count := i8_of_u8 it.count, id := it.item_type.get_id,
            damage := i16_of_u16 it.damage, slot := i8_of_u8 n,
            nbt := it.nbt.map nbtEnc }
          = some (A.set n (some it)) := by
        unfold loadStep
        rw [hln]
        dsimp only
        rw [usize_i8_small n (by omega), if_pos (show n < A.length by omega)]
        rw [hrecon]
      rw [hstep]
      rw [ih (n + 1) (A.set n (some it)) (by simp [hA])
        (by simp only [List.length_cons] at hn; omega)
        (fun j hj hj2 => by
          rw [List.getElem?_set_ne (by omega)]
          exact hz j (by omega) hj2)
        (fun it2 hit2 => hwf it2
          (by rw [List.reduceOption_cons_of_some]; exact List.mem_cons_of_mem _ hit2))
        (fun it2 hit2 => hnbt it2
          (by rw [List.reduceOption_cons_of_some]; exact List.mem_cons_of_mem _ hit2))]
      rw [List.take_succ, take_set_same]
      rw [show (A.set n (some it))[n]? = some (some it) from by
        rw [List.getElem?_set_self', show A[n]? = some none from hz n le_rfl (by omega)]
        rfl]
      simp

theorem loadInventory_roundtrip (nbtEnc : NbtBlob → List Nat)
    (nbtDec : List Nat → Option NbtBlob) (inv : List (Option ItemStack))
    (hlen : inv.length = 46)
    (hwf : ∀ it ∈ inv.reduceOption, it.count < 256 ∧ it.damage < 65536)
    (hnbt : ∀ it ∈ inv.reduceOption, ∀ b, it.nbt = some b → nbtDec (nbtEnc b) = some b) :
    loadInventory nbtDec (mkInventoryEntries nbtEnc inv) = some inv := by
  unfold loadInventory mkInventoryEntries
  have h := foldl_loadStep_save nbtEnc nbtDec inv 0 (List.replicate 46 none)
    (by simp) (by simpa using hlen)
    (fun j hj hj2 => by rw [List.getElem?_replicate, if_pos hj2]) hwf hnbt
  rw [show inv.enum = List.enumFrom 0 inv from rfl]
  simpa using h

/-- **C4.** For every well-formed session (46 inventory slots, `u8`/`u16`
item fields in range, `u32` hotbar slot) and any external codecs that invert
their own encodings, `save` followed by `load` reproduces position, rotation,
the on-ground and flying flags, fly and walk speeds, game mode, selected
hotbar slot, and the entire sparse inventory — per-slot identifier, count,
damage, and auxiliary payload — exactly. -/
theorem save_load_roundtrip (binEnc : PlayerData → List Nat)
    (binDec : List Nat → Option PlayerData) (nbtEnc : NbtBlob → List Nat)
    (nbtDec : List Nat → Option NbtBlob) (p : Player) (uuid2 : Nat)
    (username2 : String) (client2 : NetworkClient) (now2 : Nat)
    (hlen : p.inventory.length = 46)
    (hsel : p.selected_slot < 2 ^ 32)
    (hwf : ∀ it ∈ p.inventory.reduceOption, it.count < 256 ∧ it.damage < 65536)
    (hnbt : ∀ it ∈ p.inventory.reduceOption, ∀ b, it.nbt = some b →
        nbtDec (nbtEnc b) = some b)
    (hbin : binDec (binEnc (savePlayerData nbtEnc p)) = some (savePlayerData nbtEnc p)) :
    ∃ p', load_player binDec nbtDec uuid2 username2 client2 now2
        (some (binEnc (savePlayerData nbtEnc p))) = some p' ∧
      p'.x = p.x ∧ p'.y = p.y ∧ p'.z = p.z ∧ p'.pitch = p.pitch ∧ p'.yaw = p.yaw ∧
      p'.on_ground = p.on_ground ∧ p'.flying = p.flying ∧
      p'.fly_speed = p.fly_speed ∧ p'.walk_speed = p.walk_speed ∧
      p'.gamemode = p.gamemode ∧ p'.selected_slot = p.selected_slot ∧
      p'.inventory = p.inventory := by
  have hinv := loadInventory_roundtrip nbtEnc nbtDec p.inventory hlen hwf hnbt
  unfold load_player
  dsimp only
  rw [hbin]
  unfold loadFromData
  dsimp only
  rw [show (savePlayerData nbtEnc p).inventory
      = mkInventoryEntries nbtEnc p.inventory from rfl]
  rw [hinv]
  exact ⟨_, rfl, rfl, rfl, rfl, rfl, rfl, rfl, rfl, rfl, rfl, rfl,
    u32_roundtrip p.selected_slot hsel, rfl⟩

/-- **C4, witness.** A concrete session occupying the boundary slots 0 and 45
(one item with an auxiliary payload, one with boundary count/damage values)
round-trips through save and load under codecs that invert their encodings. -/
theorem save_load_roundtrip_witness :
    ∃ p', load_player binDecRt nbtDecSome 77 "Roundtrip" ⟨2⟩ 0
        (some (binEncRt (savePlayerData nbtEncId pRt))) = some p' ∧
      p'.x = pRt.x ∧ p'.y = pRt.y ∧ p'.z = pRt.z ∧ p'.pitch = pRt.pitch ∧
      p'.yaw = pRt.yaw ∧ p'.on_ground = pRt.on_ground ∧ p'.flying = pRt.flying ∧
      p'.fly_speed = pRt.fly_speed ∧ p'.walk_speed = pRt.walk_speed ∧
      p'.gamemode = pRt.gamemode ∧ p'.selected_slot = pRt.selected_slot ∧
      p'.inventory = pRt.inventory :=
  save_load_roundtrip binEncRt binDecRt nbtEncId nbtDecSome pRt 77 "Roundtrip" ⟨2⟩ 0
    (by decide) (by decide) (by decide) (fun it hit b hb => rfl) rfl

end MCHPRS
